import Mathlib

/-!
Verification of `gcloud/streaming/util.py`.

The module has two functions of interest:

* `calculate_wait_for_retry(retry_attempt, max_wait)` computes an
  exponential-backoff wait with a random jitter, clamped into `[1, max_wait]`.
  The Python code is

      wait_time = 2 ** retry_attempt
      max_jitter = wait_time / 4.0
      wait_time += random.uniform(-max_jitter, max_jitter)
      return max(1, min(wait_time, max_wait))

  We embed the numeric computation over `ℚ` (Python ints are unbounded and
  the jitter is a real drawn uniformly from `[-max_jitter, max_jitter]`);
  the random draw becomes an explicit `jitter` argument, and theorems
  quantify over every jitter in the interval the code draws from.

* `acceptable_mime_type(accept_patterns, mime_type)` validates its inputs
  and then matches the candidate MIME type against each pattern.  Python
  strings are embedded as Lean `String`s, with the relevant Python
  operations (`in` on a character, `str.split('/')`, `', '.join`)
  re-implemented structurally over the character list `String.data` so that
  everything evaluates in the kernel.  The two exception types raised by the
  function become the constructors of an error type, and the function
  returns `Except`.
-/

namespace GcloudStreaming

/-- Python `2 ** retry_attempt`: the exponential base wait before jitter.
For a negative attempt counter Python produces the fraction `2^n` as a float;
over `ℚ` this is integer `zpow`. -/
def base_wait (retry_attempt : ℤ) : ℚ := (2 : ℚ) ^ retry_attempt

/-- Python `max_jitter = wait_time / 4.0` (computed before the jitter is
added, so it is a quarter of the base wait). -/
def max_jitter (retry_attempt : ℤ) : ℚ := base_wait retry_attempt / 4

/-- Embedding of `calculate_wait_for_retry(retry_attempt, max_wait)`; the
value produced by `random.uniform(-max_jitter, max_jitter)` is the explicit
argument `jitter`. -/
def calculate_wait_for_retry (retry_attempt : ℤ) (max_wait : ℚ) (jitter : ℚ) : ℚ :=
  let wait_time := base_wait retry_attempt + jitter
  max 1 (min wait_time max_wait)

/-- The set of values `random.uniform(-max_jitter, max_jitter)` can return:
the closed interval between the two bounds. -/
def jitter_in_range (retry_attempt : ℤ) (jitter : ℚ) : Prop :=
  -(max_jitter retry_attempt) ≤ jitter ∧ jitter ≤ max_jitter retry_attempt

/-- Unfolding lemma: the returned wait is the clamp of base-plus-jitter. -/
theorem calculate_wait_for_retry_eq (retry_attempt : ℤ) (max_wait jitter : ℚ) :
    calculate_wait_for_retry retry_attempt max_wait jitter =
      max 1 (min (base_wait retry_attempt + jitter) max_wait) := rfl

/-- C1, as stated, is false: with `attempt = 0`, `max_wait = 1/2 > 0` and the
legal jitter draw `0`, the function returns `1`, which exceeds `max_wait`,
so the claimed bound `v ≤ max_wait` fails. -/
theorem C1_counterexample :
    (0 : ℚ) < 1/2 ∧ jitter_in_range 0 0 ∧
    calculate_wait_for_retry 0 (1/2) 0 = 1 ∧ ¬ ((1 : ℚ) ≤ 1/2) := by
  refine ⟨by norm_num, ?_, ?_, by norm_num⟩
  · constructor <;> norm_num [max_jitter, base_wait]
  · norm_num [calculate_wait_for_retry, base_wait, min_def, max_def]

/-- C1 (amended): for every attempt `≥ 0`, every `max_wait ≥ 1` and every
jitter the uniform draw can produce, the returned wait `v` satisfies
`1 ≤ v ≤ max_wait`. -/
theorem C1_bounds (retry_attempt : ℤ) (max_wait jitter : ℚ)
    (ha : 0 ≤ retry_attempt) (hm : 1 ≤ max_wait)
    (hj : jitter_in_range retry_attempt jitter) :
    1 ≤ calculate_wait_for_retry retry_attempt max_wait jitter ∧
    calculate_wait_for_retry retry_attempt max_wait jitter ≤ max_wait := by
  unfold calculate_wait_for_retry
  exact ⟨le_max_left _ _, max_le hm (min_le_right _ _)⟩

/-- Witness for C1: the amended bounds hold at attempt `0`, `max_wait = 60`,
jitter `0`. -/
theorem C1_bounds_witness :
    1 ≤ calculate_wait_for_retry 0 60 0 ∧ calculate_wait_for_retry 0 60 0 ≤ 60 :=
  C1_bounds 0 60 0 (by norm_num) (by norm_num)
    (by constructor <;> norm_num [max_jitter, base_wait])

/-- C6: at `attempt = 10`, `max_wait = 60`, the function returns exactly `60`
for every jitter the uniform draw can produce: the base `2^10 = 1024` minus
the largest negative jitter `256` still exceeds `60`, so the upper clamp
saturates. -/
theorem C6_clamp_saturation (jitter : ℚ) (hj : jitter_in_range 10 jitter) :
    calculate_wait_for_retry 10 60 jitter = 60 := by
  obtain ⟨hlo, hhi⟩ := hj
  have hmj : max_jitter 10 = 256 := by norm_num [max_jitter, base_wait]
  rw [hmj] at hlo hhi
  have hb : base_wait 10 = 1024 := by norm_num [base_wait]
  rw [calculate_wait_for_retry_eq, hb, min_eq_right (by linarith),
    max_eq_right (by norm_num)]

/-- Witness for C6 at jitter `0`. -/
theorem C6_clamp_saturation_witness : calculate_wait_for_retry 10 60 0 = 60 :=
  C6_clamp_saturation 0 (by constructor <;> norm_num [max_jitter, base_wait])

/-- C7: the returned value is exactly `max(1, min(2^attempt + j, max_wait))`
for the sampled jitter `j ∈ [-2^attempt/4, 2^attempt/4]`, and whenever
`0.75 * 2^attempt ≥ 1` and `1.25 * 2^attempt ≤ max_wait` the result lies
within ±25% of `2^attempt`. -/
theorem C7_jitter_formula (retry_attempt : ℤ) (max_wait jitter : ℚ)
    (hj : jitter_in_range retry_attempt jitter) :
    calculate_wait_for_retry retry_attempt max_wait jitter =
      max 1 (min (base_wait retry_attempt + jitter) max_wait) ∧
    (1 ≤ 3/4 * base_wait retry_attempt →
      5/4 * base_wait retry_attempt ≤ max_wait →
      3/4 * base_wait retry_attempt ≤
          calculate_wait_for_retry retry_attempt max_wait jitter ∧
        calculate_wait_for_retry retry_attempt max_wait jitter ≤
          5/4 * base_wait retry_attempt) := by
  obtain ⟨hlo, hhi⟩ := hj
  unfold max_jitter at hlo hhi
  refine ⟨rfl, fun h1 h2 => ?_⟩
  have hw1 : 3/4 * base_wait retry_attempt ≤ base_wait retry_attempt + jitter := by
    linarith
  have hw2 : base_wait retry_attempt + jitter ≤ 5/4 * base_wait retry_attempt := by
    linarith
  rw [calculate_wait_for_retry_eq, min_eq_left (by linarith),
    max_eq_right (by linarith)]
  exact ⟨hw1, hw2⟩

/-- Witness for C7 at attempt `2`, `max_wait = 60`, jitter `0`. -/
theorem C7_jitter_formula_witness :
    calculate_wait_for_retry 2 60 0 = max 1 (min (base_wait 2 + 0) 60) ∧
    (1 ≤ 3/4 * base_wait 2 → 5/4 * base_wait 2 ≤ 60 →
      3/4 * base_wait 2 ≤ calculate_wait_for_retry 2 60 0 ∧
        calculate_wait_for_retry 2 60 0 ≤ 5/4 * base_wait 2) :=
  C7_jitter_formula 2 60 0 (by constructor <;> norm_num [max_jitter, base_wait])

/-- C9: for a negative attempt counter and `max_wait ≥ 1` the function
always returns exactly `1`: the base is at most `1/2`, so even with maximal
positive jitter the wait is at most `5/8 < 1` and the lower clamp dominates. -/
theorem C9_negative_attempt_returns_one (retry_attempt : ℤ) (max_wait jitter : ℚ)
    (ha : retry_attempt < 0) (hm : 1 ≤ max_wait)
    (hj : jitter_in_range retry_attempt jitter) :
    calculate_wait_for_retry retry_attempt max_wait jitter = 1 := by
  obtain ⟨hlo, hhi⟩ := hj
  unfold max_jitter at hlo hhi
  have hble : base_wait retry_attempt ≤ 1/2 := by
    have h1 : retry_attempt ≤ -1 := by omega
    have h2 : (2 : ℚ) ^ retry_attempt ≤ (2 : ℚ) ^ (-1 : ℤ) :=
      zpow_le_zpow_right₀ (by norm_num) h1
    have h3 : ((2 : ℚ) ^ (-1 : ℤ)) = 1/2 := by norm_num
    unfold base_wait
    rw [h3] at h2
    exact h2
  rw [calculate_wait_for_retry_eq, min_eq_left (by linarith),
    max_eq_left (by linarith)]

/-- Witness for C9 at attempt `-1`, `max_wait = 60`, jitter `0`. -/
theorem C9_negative_attempt_returns_one_witness :
    calculate_wait_for_retry (-1) 60 0 = 1 :=
  C9_negative_attempt_returns_one (-1) 60 0 (by norm_num) (by norm_num)
    (by constructor <;> norm_num [max_jitter, base_wait])

/-- Python membership test `c in s` for a single character: the character
occurs in the string. -/
def strContains (s : String) (c : Char) : Bool := s.data.contains c

/-- Python `str.split(sep)` for a one-character separator, over the
character list of the string: the empty string yields one empty component,
adjacent separators yield empty components. -/
def pySplit (sep : Char) : List Char → List (List Char)
  | [] => [[]]
  | c :: rest =>
    match pySplit sep rest with
    | [] => [[]]
    | h :: t => if c = sep then [] :: h :: t else (c :: h) :: t

/-- Python `sep.join(xs)`. -/
def pyJoin (sep : String) : List String → String
  | [] => ""
  | [s] => s
  | s :: rest => s ++ sep ++ pyJoin sep rest

/-- The separator of the Python expression `', '.join(unsupported_patterns)`. -/
def commaSpace : String := ", "

/-- The two exception types `acceptable_mime_type` can raise. -/
inductive MimeError where
  | invalidUserInput : String → MimeError
  | configurationValue : String → MimeError
deriving DecidableEq

/-- The message of the Python expression
`InvalidUserInputError('Invalid MIME type: "%s"' % mime_type)`. -/
def invalid_mime_msg (mime_type : String) : String :=
  "Invalid MIME type: \x22" ++ mime_type ++ "\x22"

/-- The message of the Python expression
`ConfigurationValueError('MIME patterns with parameter unsupported: "%s"' %
', '.join(unsupported_patterns))`. -/
def unsupported_msg (unsupported_patterns : List String) : String :=
  "MIME patterns with parameter unsupported: \x22" ++
    pyJoin commaSpace unsupported_patterns ++ "\x22"

/-- The inner Python helper of `acceptable_mime_type`:
`all(accept in ('*', provided) for accept, provided in
zip(pattern.split('/'), mime_type.split('/')))`. -/
def _match (pattern : String) (mime_type : String) : Bool :=
  (List.zip (pySplit '/' pattern.data) (pySplit '/' mime_type.data)).all
    (fun ap => ap.1 == ['*'] || ap.1 == ap.2)

/-- Embedding of `acceptable_mime_type(accept_patterns, mime_type)`: the two
`raise` statements become `Except.error`, the final `any` becomes the
returned boolean. -/
def acceptable_mime_type (accept_patterns : List String) (mime_type : String) :
    Except MimeError Bool :=
  if ¬ strContains mime_type '/' then
    Except.error (MimeError.invalidUserInput (invalid_mime_msg mime_type))
  else
    let unsupported_patterns := accept_patterns.filter (fun p => strContains p ';')
    if unsupported_patterns ≠ [] then
      Except.error (MimeError.configurationValue
        (unsupported_msg unsupported_patterns))
    else
      Except.ok (accept_patterns.any (fun pattern => _match pattern mime_type))

/-- Helper (not itself a claim): when the candidate contains a slash and no
pattern contains a semicolon, the call succeeds and returns the disjunction
of the per-pattern matches. -/
theorem acceptable_mime_type_ok (accept_patterns : List String) (mime_type : String)
    (hm : strContains mime_type '/' = true)
    (hp : ∀ p ∈ accept_patterns, strContains p ';' = false) :
    acceptable_mime_type accept_patterns mime_type =
      Except.ok (accept_patterns.any (fun pattern => _match pattern mime_type)) := by
  have hfil : accept_patterns.filter (fun p => strContains p ';') = [] :=
    List.filter_eq_nil_iff.mpr (fun p hmem => by simp [hp p hmem])
  unfold acceptable_mime_type
  rw [hm]
  simp [hfil]

/-- C3: a candidate with no slash is rejected with the invalid-input error,
whatever the patterns are — in particular the semicolon check on the
patterns never runs first. -/
theorem C3_invalid_input_first (accept_patterns : List String) (mime_type : String)
    (hm : strContains mime_type '/' = false) :
    acceptable_mime_type accept_patterns mime_type =
      Except.error (MimeError.invalidUserInput (invalid_mime_msg mime_type)) := by
  unfold acceptable_mime_type
  rw [hm]
  simp

/-- Witness for C3: a slash-free candidate together with a pattern that does
contain a semicolon still produces the invalid-input error, not the
configuration error. -/
theorem C3_invalid_input_first_witness :
    acceptable_mime_type ["text/plain; q=1"] "textplain" =
      Except.error (MimeError.invalidUserInput (invalid_mime_msg "textplain")) :=
  C3_invalid_input_first ["text/plain; q=1"] "textplain" (by rfl)

/-- C5: when the candidate contains a slash and some pattern contains a
semicolon, the call fails with the configuration error whose message joins
every offending pattern (the whole semicolon filter of the pattern list)
with a comma. -/
theorem C5_config_error_all_offenders (accept_patterns : List String)
    (mime_type : String)
    (hm : strContains mime_type '/' = true)
    (hne : accept_patterns.filter (fun p => strContains p ';') ≠ []) :
    acceptable_mime_type accept_patterns mime_type =
      Except.error (MimeError.configurationValue
        (unsupported_msg (accept_patterns.filter (fun p => strContains p ';')))) := by
  unfold acceptable_mime_type
  rw [hm]
  simp [hne]

/-- Witness for C5: two of three patterns carry parameters and the error
message enumerates both, comma-joined. -/
theorem C5_config_error_all_offenders_witness :
    acceptable_mime_type ["a/b;c", "text/plain", "d;e"] "text/plain" =
      Except.error (MimeError.configurationValue
        "MIME patterns with parameter unsupported: \x22a/b;c, d;e\x22") :=
  (C5_config_error_all_offenders ["a/b;c", "text/plain", "d;e"] "text/plain"
    (by rfl) (by decide)).trans (by rfl)

/-- C2, as stated, is false: a pattern with no slash separator is not
rejected — with the slash-free pattern list `["text"]` the call proceeds to
matching and returns a boolean (here `true`, by shortest-zip matching). -/
theorem C2_counterexample :
    strContains "text" '/' = false ∧
    acceptable_mime_type ["text"] "text/plain" = Except.ok true := by
  constructor
  · rfl
  · rfl

/-- C2 (amended): only the candidate is checked for the slash separator;
patterns missing the slash are not validated, and (when the candidate has a
slash and no pattern has a semicolon) the call proceeds to matching and
returns the boolean disjunction of per-pattern matches, whether or not the
patterns contain a slash. -/
theorem C2_no_slash_check_on_patterns (accept_patterns : List String)
    (mime_type : String)
    (hm : strContains mime_type '/' = true)
    (hp : ∀ p ∈ accept_patterns, strContains p ';' = false) :
    acceptable_mime_type accept_patterns mime_type =
      Except.ok (accept_patterns.any (fun pattern => _match pattern mime_type)) :=
  acceptable_mime_type_ok accept_patterns mime_type hm hp

/-- Witness for C2's amended claim at the counterexample's input: the
slash-free pattern list `["text"]` yields a boolean result. -/
theorem C2_no_slash_check_on_patterns_witness :
    acceptable_mime_type ["text"] "text/plain" =
      Except.ok ((["text"] : List String).any
        (fun pattern => _match pattern "text/plain")) :=
  C2_no_slash_check_on_patterns ["text"] "text/plain" (by rfl) (by decide)

/-- Matching of one pattern against the candidate as the spec words it:
position by position over the overlapping prefix of the two slash-split
component lists, the pattern component is either the literal wildcard or
exactly (case-sensitively) equal to the candidate component; excess
components on either side are ignored. -/
def spec_match (pattern mime_type : String) : Prop :=
  ∀ i : ℕ,
    i < min (pySplit '/' pattern.data).length (pySplit '/' mime_type.data).length →
    ((pySplit '/' pattern.data).getD i [] = ['*'] ∨
      (pySplit '/' pattern.data).getD i [] = (pySplit '/' mime_type.data).getD i [])

/-- Helper (not itself a claim): the code's zip-based `_match` computes
exactly the spec's position-by-position matching relation. -/
theorem _match_iff_spec_match (pattern mime_type : String) :
    _match pattern mime_type = true ↔ spec_match pattern mime_type := by
  unfold _match spec_match
  rw [List.all_eq_true]
  constructor
  · intro h i hi
    have hp2 : i < (pySplit '/' pattern.data).length :=
      lt_of_lt_of_le hi (min_le_left _ _)
    have hm2 : i < (pySplit '/' mime_type.data).length :=
      lt_of_lt_of_le hi (min_le_right _ _)
    have hz : i < ((pySplit '/' pattern.data).zip (pySplit '/' mime_type.data)).length := by
      rw [List.length_zip]
      exact lt_min hp2 hm2
    have hx := h _ (List.mem_iff_getElem.mpr ⟨i, hz, rfl⟩)
    rw [List.getElem_zip] at hx
    simp only [Bool.or_eq_true, beq_iff_eq] at hx
    rw [List.getD_eq_getElem _ _ hp2, List.getD_eq_getElem _ _ hm2]
    exact hx
  · intro h x hx
    obtain ⟨i, hz, rfl⟩ := List.mem_iff_getElem.mp hx
    have hmin : i <
        min (pySplit '/' pattern.data).length (pySplit '/' mime_type.data).length := by
      rw [List.length_zip] at hz
      exact hz
    have hp2 : i < (pySplit '/' pattern.data).length :=
      lt_of_lt_of_le hmin (min_le_left _ _)
    have hm2 : i < (pySplit '/' mime_type.data).length :=
      lt_of_lt_of_le hmin (min_le_right _ _)
    have hi := h i hmin
    rw [List.getD_eq_getElem _ _ hp2, List.getD_eq_getElem _ _ hm2] at hi
    rw [List.getElem_zip]
    simp only [Bool.or_eq_true, beq_iff_eq]
    exact hi

/-- C4: for a candidate with a slash and semicolon-free patterns, the call
returns true iff some pattern matches under the spec's shortest-zip,
wildcard-or-equal, any-pattern semantics; the empty pattern list yields
false. -/
theorem C4_match_semantics (accept_patterns : List String) (mime_type : String)
    (hm : strContains mime_type '/' = true)
    (hp : ∀ p ∈ accept_patterns, strContains p ';' = false) :
    (acceptable_mime_type accept_patterns mime_type = Except.ok true ↔
      ∃ p ∈ accept_patterns, spec_match p mime_type) ∧
    acceptable_mime_type [] mime_type = Except.ok false := by
  constructor
  · rw [acceptable_mime_type_ok accept_patterns mime_type hm hp]
    constructor
    · intro h
      have hany : accept_patterns.any (fun pattern => _match pattern mime_type) = true := by
        injection h
      obtain ⟨p, hmem, hpm⟩ := List.any_eq_true.mp hany
      exact ⟨p, hmem, (_match_iff_spec_match p mime_type).mp hpm⟩
    · rintro ⟨p, hmem, hps⟩
      have hany : accept_patterns.any (fun pattern => _match pattern mime_type) = true :=
        List.any_eq_true.mpr ⟨p, hmem, (_match_iff_spec_match p mime_type).mpr hps⟩
      rw [hany]
  · rw [acceptable_mime_type_ok [] mime_type hm (by simp)]
    rfl

/-- Witness for C4: the wildcard pattern list matches the concrete
candidate, and the empty pattern list yields false. -/
theorem C4_match_semantics_witness :
    (acceptable_mime_type ["text/*"] "text/plain" = Except.ok true ↔
      ∃ p ∈ (["text/*"] : List String), spec_match p "text/plain") ∧
    acceptable_mime_type [] "text/plain" = Except.ok false :=
  C4_match_semantics ["text/*"] "text/plain" (by rfl) (by decide)

/-- C8: for a candidate with a slash and semicolon-free patterns, the result
is invariant under permutation of the pattern list. -/
theorem C8_perm_invariant (accept_patterns accept_patterns' : List String)
    (mime_type : String) (hperm : accept_patterns.Perm accept_patterns')
    (hm : strContains mime_type '/' = true)
    (hp : ∀ p ∈ accept_patterns, strContains p ';' = false) :
    acceptable_mime_type accept_patterns mime_type =
      acceptable_mime_type accept_patterns' mime_type := by
  have hp' : ∀ p ∈ accept_patterns', strContains p ';' = false := fun p hmem =>
    hp p (hperm.mem_iff.mpr hmem)
  rw [acceptable_mime_type_ok _ _ hm hp, acceptable_mime_type_ok _ _ hm hp']
  congr 1
  apply Bool.eq_iff_iff.mpr
  rw [List.any_eq_true, List.any_eq_true]
  constructor
  · rintro ⟨p, hmem, hpm⟩
    exact ⟨p, hperm.mem_iff.mp hmem, hpm⟩
  · rintro ⟨p, hmem, hpm⟩
    exact ⟨p, hperm.mem_iff.mpr hmem, hpm⟩

/-- Witness for C8: swapping a two-pattern list does not change the result. -/
theorem C8_perm_invariant_witness :
    acceptable_mime_type ["a/b", "text/*"] "text/plain" =
      acceptable_mime_type ["text/*", "a/b"] "text/plain" :=
  C8_perm_invariant ["a/b", "text/*"] ["text/*", "a/b"] "text/plain"
    (List.Perm.swap _ _ _) (by rfl) (by decide)

/-- C10: a candidate containing a slash is never rejected for containing a
semicolon or an asterisk — the semicolon validation scans only the patterns —
and the call proceeds to matching, returning a boolean that is true iff some
pattern matches the candidate components literally (pattern component is the
wildcard or exactly equal, so a candidate component `*` is matched only by a
pattern component that is `*` itself). -/
theorem C10_candidate_not_rejected (accept_patterns : List String)
    (mime_type : String)
    (hm : strContains mime_type '/' = true)
    (hp : ∀ p ∈ accept_patterns, strContains p ';' = false) :
    ∃ b : Bool, acceptable_mime_type accept_patterns mime_type = Except.ok b ∧
      (b = true ↔ ∃ p ∈ accept_patterns, spec_match p mime_type) := by
  refine ⟨accept_patterns.any (fun pattern => _match pattern mime_type),
    acceptable_mime_type_ok accept_patterns mime_type hm hp, ?_⟩
  rw [List.any_eq_true]
  exact ⟨fun h => by
      obtain ⟨p, h1, h2⟩ := h
      exact ⟨p, h1, (_match_iff_spec_match p mime_type).mp h2⟩,
    fun h => by
      obtain ⟨p, h1, h2⟩ := h
      exact ⟨p, h1, (_match_iff_spec_match p mime_type).mpr h2⟩⟩

/-- Witness for C10: the candidate carries a parameter (a semicolon) yet is
not rejected; matching proceeds against the wildcard pattern. -/
theorem C10_candidate_not_rejected_witness :
    ∃ b : Bool,
      acceptable_mime_type ["text/*"] "text/plain; q=1" = Except.ok b ∧
      (b = true ↔ ∃ p ∈ (["text/*"] : List String), spec_match p "text/plain; q=1") :=
  C10_candidate_not_rejected ["text/*"] "text/plain; q=1" (by rfl) (by decide)

end GcloudStreaming
